import Mathlib

/-!
Verification of the geometry and interaction-state engine of the
`magnifying-vue` component (`src/Magnifier.vue`).

Numbers are modelled as rationals (`ℚ`): the source works with JS floats,
and all claims under study are exact linear-arithmetic facts.  DOM values a
handler reads (pointer coordinates, element sizes, the image's bounding
rectangle, the viewport) are explicit inputs; the component's reactive refs
(`imgBounds`, `showZoom`, `mgOffsetX/Y`, `relX/Y`) form an explicit state
record, and each event handler is a state-transition function.
-/

/-- The cached bounding rectangle of the image (`getBoundingClientRect`),
viewport-relative. -/
structure Bounds where
  top : ℚ
  left : ℚ
  width : ℚ
  height : ℚ
deriving DecidableEq, Repr

/-- The window-level quantities `mgStyle` reads: `window.innerWidth`,
`window.scrollX`, `window.scrollY`. -/
structure Viewport where
  innerWidth : ℚ
  scrollX : ℚ
  scrollY : ℚ
deriving DecidableEq, Repr

/-- The component props consumed by the engine (numeric props as `ℚ`,
string props as `String`). -/
structure Props where
  src : String
  zoomImgSrc : String
  zoomFactor : ℚ
  mgWidth : ℚ
  mgHeight : ℚ
  mgBorderWidth : ℚ
  mgMouseOffsetX : ℚ
  mgMouseOffsetY : ℚ
  mgTouchOffsetX : ℚ
  mgTouchOffsetY : ℚ
  mgCornerBgColor : String
deriving DecidableEq, Repr

/-- The reactive refs of the component that the handlers mutate:
`imgBounds`, `showZoom`, `mgOffsetX`, `mgOffsetY`, `relX`, `relY`. -/
structure EngineState where
  imgBounds : Option Bounds
  showZoom : Bool
  mgOffsetX : ℚ
  mgOffsetY : ℚ
  relX : ℚ
  relY : ℚ
deriving DecidableEq, Repr

/-- One `calc(P% + Hpx - Spx)` background-position expression as emitted by
`mgStyle`: `percent` is the `%` term, `halfPx` the added pixel term, and
`scalePx` the subtracted pixel term. -/
structure CalcPos where
  percent : ℚ
  halfPx : ℚ
  scalePx : ℚ
deriving DecidableEq, Repr

/-- The style record produced by the `mgStyle` computed property
(`width`/`height`/`left`/`top` in px, background position as two `calc`
expressions, background size as two percentages). -/
structure MgStyleVal where
  width : ℚ
  height : ℚ
  left : ℚ
  top : ℚ
  backgroundImage : String
  backgroundPositionX : CalcPos
  backgroundPositionY : CalcPos
  backgroundSizeX : ℚ
  backgroundSizeY : ℚ
  borderWidth : ℚ
  backgroundColor : String
deriving DecidableEq, Repr

/-- The `mgStyle` computed property (`Magnifier.vue` lines 123-154): returns
no style when `imgBounds` is absent; otherwise derives the lens placement
(with the two-step horizontal clamp) and the background position/size. -/
def mgStyle (props : Props) (vp : Viewport) (s : EngineState) : Option MgStyleVal :=
  match s.imgBounds with
  | none => none
  | some b =>
    let viewportWidth := vp.innerWidth
    let x := s.relX * b.width - props.mgWidth / 2 + s.mgOffsetX
    let y := s.relY * b.height - props.mgHeight / 2 + s.mgOffsetY
    let top := b.top + y + vp.scrollY
    let left0 := b.left + x + vp.scrollX
    let left1 := if left0 < vp.scrollX then vp.scrollX else left0
    let left2 := if left1 + props.mgWidth > viewportWidth + vp.scrollX then
        viewportWidth + vp.scrollX - props.mgWidth
      else left1
    some
      { width := props.mgWidth
        height := props.mgHeight
        left := left2
        top := top
        backgroundImage := if props.zoomImgSrc = "" then props.src else props.zoomImgSrc
        backgroundPositionX :=
          { percent := s.relX * 100
            halfPx := props.mgWidth / 2
            scalePx := s.relX * props.mgWidth }
        backgroundPositionY :=
          { percent := s.relY * 100
            halfPx := props.mgHeight / 2
            scalePx := s.relY * props.mgWidth }
        backgroundSizeX := props.zoomFactor * b.width
        backgroundSizeY := props.zoomFactor * b.height
        borderWidth := props.mgBorderWidth
        backgroundColor := props.mgCornerBgColor }

/-- `calcImgBounds` (lines 156-160): if the image element is attached (its
measured rectangle is available), replace `imgBounds` wholesale; otherwise
keep the previous state. -/
def calcImgBounds (imgEl : Option Bounds) (s : EngineState) : EngineState :=
  match imgEl with
  | some r => { s with imgBounds := some r }
  | none => s

/-- The two observable steps of the `onImageLoad` handler, in execution
order: emitting the `image:load` event to the host, and measuring bounds. -/
inductive LoadStep where
  | emitImageLoad
  | measureBounds
deriving DecidableEq, Repr, BEq

/-- `onImageLoad` (lines 162-165): `emit('image:load', event)` first, then
`calcImgBounds()`.  Returns the new state together with the ordered list of
observable steps. -/
def onImageLoad (imgEl : Option Bounds) (s : EngineState) : EngineState × List LoadStep :=
  (calcImgBounds imgEl s, [LoadStep.emitImageLoad, LoadStep.measureBounds])

/-- `onMouseEnter` (lines 167-169): just `calcImgBounds()`. -/
def onMouseEnter (imgEl : Option Bounds) (s : EngineState) : EngineState :=
  calcImgBounds imgEl s

/-- The fields of a mouse event read by `onMouseMove`: `e.clientX`,
`e.clientY`, and the target element's `clientWidth`/`clientHeight`. -/
structure MouseEv where
  clientX : ℚ
  clientY : ℚ
  targetClientWidth : ℚ
  targetClientHeight : ℚ
deriving DecidableEq, Repr

/-- `onMouseMove` (lines 171-183): early-return when `imgBounds` is absent;
otherwise store the mouse offsets, the relative position (no clamping), and
set `showZoom` to `true` unconditionally. -/
def onMouseMove (props : Props) (e : MouseEv) (s : EngineState) : EngineState :=
  match s.imgBounds with
  | none => s
  | some b =>
    { s with
      mgOffsetX := props.mgMouseOffsetX
      mgOffsetY := props.mgMouseOffsetY
      relX := (e.clientX - b.left) / e.targetClientWidth
      relY := (e.clientY - b.top) / e.targetClientHeight
      showZoom := true }

/-- `onMouseOut` (lines 185-187): hide the lens. -/
def onMouseOut (s : EngineState) : EngineState :=
  { s with showZoom := false }

/-- `onTouchStart` (lines 189-191): just `calcImgBounds()`. -/
def onTouchStart (imgEl : Option Bounds) (s : EngineState) : EngineState :=
  calcImgBounds imgEl s

/-- One entry of `e.targetTouches`: the fields read are `clientX` and
`clientY`. -/
structure Touch where
  clientX : ℚ
  clientY : ℚ
deriving DecidableEq, Repr

/-- The fields of a touch event read by `onTouchMove`: the `targetTouches`
list and the target element's `clientWidth`/`clientHeight`. -/
structure TouchEv where
  targetTouches : List Touch
  targetClientWidth : ℚ
  targetClientHeight : ℚ
deriving DecidableEq, Repr

/-- `onTouchMove` (lines 193-212): early-return when `imgBounds` is absent.
The source then reads `e.targetTouches[0]` with no emptiness guard: on an
empty touch list the JS handler throws a `TypeError`, modelled as
`Except.error`.  Otherwise the local relative position is computed and, if
both coordinates lie in `[0,1]`, the touch offsets and position are stored
and the lens shown; else only `showZoom` is set to `false`. -/
def onTouchMove (props : Props) (e : TouchEv) (s : EngineState) :
    Except String EngineState :=
  match s.imgBounds with
  | none => .ok s
  | some b =>
    match e.targetTouches with
    | [] => .error "TypeError: e.targetTouches[0] is undefined"
    | t0 :: _ =>
      let relXLocal := (t0.clientX - b.left) / e.targetClientWidth
      let relYLocal := (t0.clientY - b.top) / e.targetClientHeight
      if relXLocal ≥ 0 ∧ relYLocal ≥ 0 ∧ relXLocal ≤ 1 ∧ relYLocal ≤ 1 then
        .ok
          { s with
            mgOffsetX := props.mgTouchOffsetX
            mgOffsetY := props.mgTouchOffsetY
            relX := relXLocal
            relY := relYLocal
            showZoom := true }
      else
        .ok { s with showZoom := false }

/-- `onTouchEnd` (lines 214-216): hide the lens. -/
def onTouchEnd (s : EngineState) : EngineState :=
  { s with showZoom := false }

/-! Concrete inputs used by witnesses and counterexamples.  `exProps` carries
the component's default prop values; `exBounds`, `exMouseEv` and `exViewport`
are the worked example of the specification (§8). -/

/-- The example bounding rectangle `{top:100, left:50, width:200, height:200}`. -/
def exBounds : Bounds := ⟨100, 50, 200, 200⟩

/-- The default props: `zoomFactor = 1.5`, `mgWidth = mgHeight = 150`,
zero mouse offsets, `-50` touch offsets. -/
def exProps : Props :=
  { src := "large.png", zoomImgSrc := "", zoomFactor := 3/2, mgWidth := 150,
    mgHeight := 150, mgBorderWidth := 2, mgMouseOffsetX := 0, mgMouseOffsetY := 0,
    mgTouchOffsetX := -50, mgTouchOffsetY := -50, mgCornerBgColor := "#fff" }

/-- The example viewport `{scrollX:0, scrollY:0, width:1000}`. -/
def exViewport : Viewport := ⟨1000, 0, 0⟩

/-- A state whose bounds are measured (`exBounds`) and all refs at their
initial values. -/
def exState0 : EngineState := ⟨some exBounds, false, 0, 0, 0, 0⟩

/-- A state with measured bounds, lens shown, and relative position (1/2, 1/2). -/
def exShown : EngineState := ⟨some exBounds, true, 0, 0, 1/2, 1/2⟩

/-- The example pointer position `(150, 200)` over a 200×200 element. -/
def exMouseEv : MouseEv := ⟨150, 200, 200, 200⟩

/-- The initial state: no bounds measured yet. -/
def exNoBoundsState : EngineState := ⟨none, false, 0, 0, 0, 0⟩

/-- Props with a lens (`mgWidth = 200`) wider than `wideViewport`. -/
def wideLensProps : Props :=
  { src := "large.png", zoomImgSrc := "", zoomFactor := 3/2, mgWidth := 200,
    mgHeight := 150, mgBorderWidth := 2, mgMouseOffsetX := 0, mgMouseOffsetY := 0,
    mgTouchOffsetX := -50, mgTouchOffsetY := -50, mgCornerBgColor := "#fff" }

/-- A narrow viewport (`innerWidth = 100`, zero scroll). -/
def wideViewport : Viewport := ⟨100, 0, 0⟩

/-- A 100×100 bounding rectangle at the viewport origin, for touch examples. -/
def touchBounds : Bounds := ⟨0, 0, 100, 100⟩

/-- A state with `touchBounds` measured and all refs at their initial values. -/
def touchState : EngineState := ⟨some touchBounds, false, 0, 0, 0, 0⟩

/-- A touch at `(120, 50)`: relative position `(1.2, 0.5)` over `touchBounds`. -/
def exTouchOut : Touch := ⟨120, 50⟩

/-- A touch-move event carrying `exTouchOut` over a 100×100 element. -/
def touchEvOut : TouchEv := ⟨[exTouchOut], 100, 100⟩

/-- A touch-move event at relative position `(0.9999, 0.5)` over a 100×100
element. -/
def touchEvIn : TouchEv := ⟨[⟨9999/100, 50⟩], 100, 100⟩

/-- A touch-move event whose `targetTouches` list is empty. -/
def emptyTouchEv : TouchEv := ⟨[], 100, 100⟩

/-- C1: with bounds present, `relX, relY ∈ [0,1]` and a viewport at least as
wide as the lens, the `left` computed by `mgStyle` lies within
`[scrollX, scrollX + viewportWidth - mgWidth]`. -/
theorem mgStyle_left_within_viewport (props : Props) (vp : Viewport) (s : EngineState)
    (b : Bounds) (hb : s.imgBounds = some b)
    (hx0 : 0 ≤ s.relX) (hx1 : s.relX ≤ 1) (hy0 : 0 ≤ s.relY) (hy1 : s.relY ≤ 1)
    (hw : props.mgWidth ≤ vp.innerWidth) :
    ∃ st, mgStyle props vp s = some st ∧
      vp.scrollX ≤ st.left ∧ st.left ≤ vp.scrollX + vp.innerWidth - props.mgWidth := by
  simp only [mgStyle, hb]
  refine ⟨_, rfl, ?_⟩
  dsimp only
  split_ifs with h1 h2 h3 <;> constructor <;> linarith

/-- C1 witness: the clamp bound instantiated at the spec's worked example. -/
theorem mgStyle_left_within_viewport_witness :
    exShown.imgBounds = some exBounds ∧ (0:ℚ) ≤ exShown.relX ∧ exShown.relX ≤ 1 ∧
    (0:ℚ) ≤ exShown.relY ∧ exShown.relY ≤ 1 ∧ exProps.mgWidth ≤ exViewport.innerWidth ∧
    ∃ st, mgStyle exProps exViewport exShown = some st ∧
      exViewport.scrollX ≤ st.left ∧
      st.left ≤ exViewport.scrollX + exViewport.innerWidth - exProps.mgWidth :=
  ⟨rfl, by norm_num [exShown], by norm_num [exShown], by norm_num [exShown],
   by norm_num [exShown], by norm_num [exProps, exViewport],
   mgStyle_left_within_viewport exProps exViewport exShown exBounds rfl
     (by norm_num [exShown]) (by norm_num [exShown]) (by norm_num [exShown])
     (by norm_num [exShown]) (by norm_num [exProps, exViewport])⟩

/-- C2 counterexample: with a 200-wide lens in a 100-wide viewport
(`scrollX = 0`), `mgStyle` does not resolve `left` to the left-clamped value
`scrollX`: the right-clamp runs second and overrides it (`left = -100`). -/
theorem mgStyle_wide_lens_not_left_clamped_cex :
    wideViewport.innerWidth < wideLensProps.mgWidth ∧
    ∃ st, mgStyle wideLensProps wideViewport exShown = some st ∧
      st.left ≠ wideViewport.scrollX :=
  ⟨by norm_num [wideLensProps, wideViewport],
   _, rfl, by norm_num [mgStyle, wideLensProps, wideViewport, exShown, exBounds]⟩

/-- C2 amended: the left-clamp is evaluated before the right-clamp, so when
the lens is wider than the viewport the right-clamp fires last and `left`
resolves to the right-clamped value `viewportWidth + scrollX - mgWidth`. -/
theorem mgStyle_wide_lens_right_clamped (props : Props) (vp : Viewport) (s : EngineState)
    (b : Bounds) (hb : s.imgBounds = some b)
    (hw : vp.innerWidth < props.mgWidth) :
    ∃ st, mgStyle props vp s = some st ∧
      st.left = vp.innerWidth + vp.scrollX - props.mgWidth := by
  simp only [mgStyle, hb]
  refine ⟨_, rfl, ?_⟩
  dsimp only
  split_ifs with h1 h2 h3 <;> first | rfl | linarith

/-- C2 amended witness: the wide-lens value at the concrete input is
`100 + 0 - 200 = -100`. -/
theorem mgStyle_wide_lens_right_clamped_witness :
    exShown.imgBounds = some exBounds ∧
    wideViewport.innerWidth < wideLensProps.mgWidth ∧
    ∃ st, mgStyle wideLensProps wideViewport exShown = some st ∧
      st.left = wideViewport.innerWidth + wideViewport.scrollX - wideLensProps.mgWidth :=
  ⟨rfl, by norm_num [wideLensProps, wideViewport],
   mgStyle_wide_lens_right_clamped wideLensProps wideViewport exShown exBounds rfl
     (by norm_num [wideLensProps, wideViewport])⟩

/-- C3 counterexample: at the spec's worked example the relative position is
`(1/2, 1/2)` and the lens top is `125`, but the lens left is `75`
(`50 + (0.5*200 - 75 + 0) + 0`), not the claimed `125`. -/
theorem mouse_example_left_cex :
    (onMouseMove exProps exMouseEv exState0).relX = 1/2 ∧
    (onMouseMove exProps exMouseEv exState0).relY = 1/2 ∧
    ∃ st, mgStyle exProps exViewport (onMouseMove exProps exMouseEv exState0) = some st ∧
      st.top = 125 ∧ st.left = 75 ∧ st.left ≠ 125 := by
  refine ⟨?_, ?_, ?_⟩
  · norm_num [onMouseMove, exProps, exMouseEv, exState0, exBounds]
  · norm_num [onMouseMove, exProps, exMouseEv, exState0, exBounds]
  · refine ⟨_, rfl, ?_, ?_, ?_⟩ <;>
      norm_num [mgStyle, onMouseMove, exProps, exMouseEv, exState0, exBounds, exViewport]

/-- C3 amended: the mouse coordinate mapper computes
`relX = (pointerX - bounds.left) / elementWidth` and
`relY = (pointerY - bounds.top) / elementHeight` with no clamping; at the
worked example this gives `relX = relY = 1/2`, lens `left = 75` (not 125)
and lens `top = 125`. -/
theorem onMouseMove_relative_formula (props : Props) (e : MouseEv) (s : EngineState)
    (b : Bounds) (hb : s.imgBounds = some b) :
    (onMouseMove props e s).relX = (e.clientX - b.left) / e.targetClientWidth ∧
    (onMouseMove props e s).relY = (e.clientY - b.top) / e.targetClientHeight ∧
    (onMouseMove exProps exMouseEv exState0).relX = 1/2 ∧
    (onMouseMove exProps exMouseEv exState0).relY = 1/2 ∧
    (mgStyle exProps exViewport (onMouseMove exProps exMouseEv exState0)).map
      MgStyleVal.left = some 75 ∧
    (mgStyle exProps exViewport (onMouseMove exProps exMouseEv exState0)).map
      MgStyleVal.top = some 125 := by
  refine ⟨by simp only [onMouseMove, hb], by simp only [onMouseMove, hb], ?_, ?_, ?_, ?_⟩ <;>
    norm_num [mgStyle, onMouseMove, exProps, exMouseEv, exState0, exBounds, exViewport,
      Option.map]

/-- C3 amended witness: the formula and example values instantiated at the
worked example input. -/
theorem onMouseMove_relative_formula_witness :
    exState0.imgBounds = some exBounds ∧
    (onMouseMove exProps exMouseEv exState0).relX =
      (exMouseEv.clientX - exBounds.left) / exMouseEv.targetClientWidth ∧
    (onMouseMove exProps exMouseEv exState0).relY =
      (exMouseEv.clientY - exBounds.top) / exMouseEv.targetClientHeight ∧
    (onMouseMove exProps exMouseEv exState0).relX = 1/2 ∧
    (onMouseMove exProps exMouseEv exState0).relY = 1/2 ∧
    (mgStyle exProps exViewport (onMouseMove exProps exMouseEv exState0)).map
      MgStyleVal.left = some 75 ∧
    (mgStyle exProps exViewport (onMouseMove exProps exMouseEv exState0)).map
      MgStyleVal.top = some 125 :=
  ⟨rfl, onMouseMove_relative_formula exProps exMouseEv exState0 exBounds rfl⟩

/-- C4: with bounds present, the background position is
`calc(relX*100% + mgWidth/2 px - relX*mgWidth px)` horizontally and
`calc(relY*100% + mgHeight/2 px - relY*mgWidth px)` vertically (the Y pixel
term reuses `mgWidth`), and the background size is
`(zoomFactor*width)% × (zoomFactor*height)%`. -/
theorem mgStyle_background_formulas (props : Props) (vp : Viewport) (s : EngineState)
    (b : Bounds) (hb : s.imgBounds = some b) :
    ∃ st, mgStyle props vp s = some st ∧
      st.backgroundPositionX =
        ⟨s.relX * 100, props.mgWidth / 2, s.relX * props.mgWidth⟩ ∧
      st.backgroundPositionY =
        ⟨s.relY * 100, props.mgHeight / 2, s.relY * props.mgWidth⟩ ∧
      st.backgroundSizeX = props.zoomFactor * b.width ∧
      st.backgroundSizeY = props.zoomFactor * b.height := by
  simp only [mgStyle, hb]
  exact ⟨_, rfl, rfl, rfl, rfl, rfl⟩

/-- C4 witness: the background formulas instantiated at the worked example. -/
theorem mgStyle_background_formulas_witness :
    exShown.imgBounds = some exBounds ∧
    ∃ st, mgStyle exProps exViewport exShown = some st ∧
      st.backgroundPositionX =
        ⟨exShown.relX * 100, exProps.mgWidth / 2, exShown.relX * exProps.mgWidth⟩ ∧
      st.backgroundPositionY =
        ⟨exShown.relY * 100, exProps.mgHeight / 2, exShown.relY * exProps.mgWidth⟩ ∧
      st.backgroundSizeX = exProps.zoomFactor * exBounds.width ∧
      st.backgroundSizeY = exProps.zoomFactor * exBounds.height :=
  ⟨rfl, mgStyle_background_formulas exProps exViewport exShown exBounds rfl⟩

/-- C5: a touch move with bounds present and a first touch yields `SHOWN`
with the touch offsets and position stored iff both relative coordinates lie
in `[0,1]`, and `HIDDEN` otherwise; concretely `relX = 1.2` hides the lens
while `relX = 0.9999` shows it, and a touch end always hides it. -/
theorem onTouchMove_shown_iff_in_bounds (props : Props) (e : TouchEv) (s s4 : EngineState)
    (b : Bounds) (t0 : Touch) (ts : List Touch)
    (hb : s.imgBounds = some b) (ht : e.targetTouches = t0 :: ts) :
    ∃ s2, onTouchMove props e s = .ok s2 ∧
      (s2.showZoom = true ↔
        ((t0.clientX - b.left) / e.targetClientWidth ≥ 0 ∧
         (t0.clientY - b.top) / e.targetClientHeight ≥ 0 ∧
         (t0.clientX - b.left) / e.targetClientWidth ≤ 1 ∧
         (t0.clientY - b.top) / e.targetClientHeight ≤ 1)) ∧
      (((t0.clientX - b.left) / e.targetClientWidth ≥ 0 ∧
        (t0.clientY - b.top) / e.targetClientHeight ≥ 0 ∧
        (t0.clientX - b.left) / e.targetClientWidth ≤ 1 ∧
        (t0.clientY - b.top) / e.targetClientHeight ≤ 1) →
        s2.mgOffsetX = props.mgTouchOffsetX ∧ s2.mgOffsetY = props.mgTouchOffsetY ∧
        s2.relX = (t0.clientX - b.left) / e.targetClientWidth ∧
        s2.relY = (t0.clientY - b.top) / e.targetClientHeight) ∧
      (∃ s5, onTouchMove exProps touchEvOut touchState = .ok s5 ∧ s5.showZoom = false) ∧
      (∃ s6, onTouchMove exProps touchEvIn touchState = .ok s6 ∧ s6.showZoom = true) ∧
      (onTouchEnd s4).showZoom = false := by
  have hOut : ∃ s5, onTouchMove exProps touchEvOut touchState = .ok s5 ∧
      s5.showZoom = false := by
    refine ⟨⟨some touchBounds, false, 0, 0, 0, 0⟩, ?_, rfl⟩
    norm_num [onTouchMove, exProps, touchEvOut, exTouchOut, touchState, touchBounds]
  have hIn : ∃ s6, onTouchMove exProps touchEvIn touchState = .ok s6 ∧
      s6.showZoom = true := by
    refine ⟨⟨some touchBounds, true, -50, -50, 9999/10000, 1/2⟩, ?_, rfl⟩
    norm_num [onTouchMove, exProps, touchEvIn, touchState, touchBounds]
  simp only [onTouchMove, hb, ht]
  split_ifs with h
  · exact ⟨_, rfl, by simp [h], fun _ => ⟨rfl, rfl, rfl, rfl⟩, hOut, hIn, rfl⟩
  · exact ⟨_, rfl, by simp [h], fun hin => absurd hin h, hOut, hIn, rfl⟩

/-- C5 witness: the visibility rule instantiated at the `relX = 1.2` touch
input, where the iff resolves to `HIDDEN`. -/
theorem onTouchMove_shown_iff_in_bounds_witness :
    touchState.imgBounds = some touchBounds ∧
    touchEvOut.targetTouches = exTouchOut :: [] ∧
    ∃ s2, onTouchMove exProps touchEvOut touchState = .ok s2 ∧
      (s2.showZoom = true ↔
        ((exTouchOut.clientX - touchBounds.left) / touchEvOut.targetClientWidth ≥ 0 ∧
         (exTouchOut.clientY - touchBounds.top) / touchEvOut.targetClientHeight ≥ 0 ∧
         (exTouchOut.clientX - touchBounds.left) / touchEvOut.targetClientWidth ≤ 1 ∧
         (exTouchOut.clientY - touchBounds.top) / touchEvOut.targetClientHeight ≤ 1)) ∧
      (((exTouchOut.clientX - touchBounds.left) / touchEvOut.targetClientWidth ≥ 0 ∧
        (exTouchOut.clientY - touchBounds.top) / touchEvOut.targetClientHeight ≥ 0 ∧
        (exTouchOut.clientX - touchBounds.left) / touchEvOut.targetClientWidth ≤ 1 ∧
        (exTouchOut.clientY - touchBounds.top) / touchEvOut.targetClientHeight ≤ 1) →
        s2.mgOffsetX = exProps.mgTouchOffsetX ∧ s2.mgOffsetY = exProps.mgTouchOffsetY ∧
        s2.relX = (exTouchOut.clientX - touchBounds.left) / touchEvOut.targetClientWidth ∧
        s2.relY = (exTouchOut.clientY - touchBounds.top) / touchEvOut.targetClientHeight) ∧
      (∃ s5, onTouchMove exProps touchEvOut touchState = .ok s5 ∧ s5.showZoom = false) ∧
      (∃ s6, onTouchMove exProps touchEvIn touchState = .ok s6 ∧ s6.showZoom = true) ∧
      (onTouchEnd touchState).showZoom = false :=
  ⟨rfl, rfl,
   onTouchMove_shown_iff_in_bounds exProps touchEvOut touchState touchState touchBounds
     exTouchOut [] rfl rfl⟩

/-- C6: in the mouse modality, pointer-enter performs the bounds measurement
and leaves visibility unchanged, pointer-move with bounds present sets
visibility to `SHOWN` unconditionally, and pointer-leave sets it to
`HIDDEN`. -/
theorem mouse_modality_transitions (imgEl : Option Bounds) (props : Props) (e : MouseEv)
    (s sm : EngineState) (b : Bounds) (hb : sm.imgBounds = some b) :
    onMouseEnter imgEl s = calcImgBounds imgEl s ∧
    (onMouseEnter imgEl s).showZoom = s.showZoom ∧
    (onMouseMove props e sm).showZoom = true ∧
    (onMouseOut s).showZoom = false := by
  refine ⟨rfl, ?_, ?_, rfl⟩
  · cases imgEl <;> rfl
  · simp only [onMouseMove, hb]

/-- C6 witness: the transitions instantiated at the worked example inputs. -/
theorem mouse_modality_transitions_witness :
    exState0.imgBounds = some exBounds ∧
    onMouseEnter (some exBounds) exNoBoundsState =
      calcImgBounds (some exBounds) exNoBoundsState ∧
    (onMouseEnter (some exBounds) exNoBoundsState).showZoom = exNoBoundsState.showZoom ∧
    (onMouseMove exProps exMouseEv exState0).showZoom = true ∧
    (onMouseOut exNoBoundsState).showZoom = false :=
  ⟨rfl, mouse_modality_transitions (some exBounds) exProps exMouseEv exNoBoundsState
    exState0 exBounds rfl⟩

/-- C7: a pointer-move or touch-move arriving while bounds are absent leaves
the whole engine state unchanged. -/
theorem handlers_noop_without_bounds (props : Props) (me : MouseEv) (te : TouchEv)
    (s : EngineState) (hb : s.imgBounds = none) :
    onMouseMove props me s = s ∧ onTouchMove props te s = .ok s := by
  constructor <;> simp only [onMouseMove, onTouchMove, hb]

/-- C7 witness: the no-op behaviour at the initial (unmeasured) state. -/
theorem handlers_noop_without_bounds_witness :
    exNoBoundsState.imgBounds = none ∧
    onMouseMove exProps exMouseEv exNoBoundsState = exNoBoundsState ∧
    onTouchMove exProps touchEvOut exNoBoundsState = .ok exNoBoundsState :=
  ⟨rfl, handlers_noop_without_bounds exProps exMouseEv touchEvOut exNoBoundsState rfl⟩

/-- C8: with bounds present and an empty `targetTouches` list, the touch-move
handler reads `e.targetTouches[0]` without a guard and throws (modelled as
`Except.error`) instead of performing no update. -/
theorem onTouchMove_empty_touches_throws :
    touchState.imgBounds = some touchBounds ∧ emptyTouchEv.targetTouches = [] ∧
    onTouchMove exProps emptyTouchEv touchState =
      .error "TypeError: e.targetTouches[0] is undefined" :=
  ⟨rfl, rfl, rfl⟩

/-- C9 counterexample: in the image-load handler the emission of
`image:load` does not come after the bounds measurement — the trace is
`[emit, measure]`, so the measurement's index is not below the emission's. -/
theorem onImageLoad_measure_not_first_cex :
    (onImageLoad (some exBounds) exState0).2 =
      [LoadStep.emitImageLoad, LoadStep.measureBounds] ∧
    ¬ (onImageLoad (some exBounds) exState0).2.indexOf LoadStep.measureBounds <
        (onImageLoad (some exBounds) exState0).2.indexOf LoadStep.emitImageLoad := by
  refine ⟨rfl, ?_⟩
  decide

/-- C9 amended: on image load the handler first emits the `image:load`
notification and only then measures the bounds; the resulting state is that
of `calcImgBounds`. -/
theorem onImageLoad_emit_then_measure (imgEl : Option Bounds) (s : EngineState) :
    (onImageLoad imgEl s).1 = calcImgBounds imgEl s ∧
    (onImageLoad imgEl s).2 = [LoadStep.emitImageLoad, LoadStep.measureBounds] ∧
    (onImageLoad imgEl s).2.indexOf LoadStep.emitImageLoad <
      (onImageLoad imgEl s).2.indexOf LoadStep.measureBounds := by
  refine ⟨rfl, rfl, ?_⟩
  have h2 : (onImageLoad imgEl s).2 =
      [LoadStep.emitImageLoad, LoadStep.measureBounds] := rfl
  rw [h2]
  decide

/-- C10: an out-of-bounds touch move with bounds present modifies only the
visibility flag (set to `HIDDEN`); position, offsets and bounds retain their
previous values. -/
theorem onTouchMove_out_of_bounds_only_hides (props : Props) (e : TouchEv) (s : EngineState)
    (b : Bounds) (t0 : Touch) (ts : List Touch)
    (hb : s.imgBounds = some b) (ht : e.targetTouches = t0 :: ts)
    (hout : ¬((t0.clientX - b.left) / e.targetClientWidth ≥ 0 ∧
              (t0.clientY - b.top) / e.targetClientHeight ≥ 0 ∧
              (t0.clientX - b.left) / e.targetClientWidth ≤ 1 ∧
              (t0.clientY - b.top) / e.targetClientHeight ≤ 1)) :
    ∃ s2, onTouchMove props e s = .ok s2 ∧ s2.showZoom = false ∧
      s2.relX = s.relX ∧ s2.relY = s.relY ∧
      s2.mgOffsetX = s.mgOffsetX ∧ s2.mgOffsetY = s.mgOffsetY ∧
      s2.imgBounds = s.imgBounds := by
  simp only [onTouchMove, hb, ht]
  rw [if_neg hout]
  exact ⟨_, rfl, rfl, rfl, rfl, rfl, rfl, rfl⟩

/-- C10 witness: the frame effect at the `relX = 1.2` touch input. -/
theorem onTouchMove_out_of_bounds_only_hides_witness :
    touchState.imgBounds = some touchBounds ∧
    touchEvOut.targetTouches = exTouchOut :: [] ∧
    ¬((exTouchOut.clientX - touchBounds.left) / touchEvOut.targetClientWidth ≥ 0 ∧
      (exTouchOut.clientY - touchBounds.top) / touchEvOut.targetClientHeight ≥ 0 ∧
      (exTouchOut.clientX - touchBounds.left) / touchEvOut.targetClientWidth ≤ 1 ∧
      (exTouchOut.clientY - touchBounds.top) / touchEvOut.targetClientHeight ≤ 1) ∧
    ∃ s2, onTouchMove exProps touchEvOut touchState = .ok s2 ∧ s2.showZoom = false ∧
      s2.relX = touchState.relX ∧ s2.relY = touchState.relY ∧
      s2.mgOffsetX = touchState.mgOffsetX ∧ s2.mgOffsetY = touchState.mgOffsetY ∧
      s2.imgBounds = touchState.imgBounds :=
  ⟨rfl, rfl, by norm_num [exTouchOut, touchBounds, touchEvOut],
   onTouchMove_out_of_bounds_only_hides exProps touchEvOut touchState touchBounds
     exTouchOut [] rfl rfl (by norm_num [exTouchOut, touchBounds, touchEvOut])⟩
